import Mathlib

/-!
# Verification of the pyiris client driver core

Shallow embedding of the transport buffering layer (`pyiris/iris_socket.py`),
the cursor protocol state machine (`pyiris/cursor.py`), the connection
teardown and redirect handling (`pyiris/connect.py`), the load-option
serialization (`pyiris/load.py`) and the value converters used by
parameterized queries (`pyiris/converter.py`).

Python strings are modelled as `List Char` (one element per Python character,
matching Python's `len`, slicing and `split` semantics); at the API boundary
Lean `String`s are converted with `String.toList`.  Python exceptions are an
explicit error type; methods that mutate `self` and may raise are modelled as
functions returning a result that carries the post-state on both the normal
and the exceptional exit, exactly as a raised Python exception leaves the
mutated object behind.
-/

namespace PyIris

/-- The Python exceptions that the embedded code can raise
(`SocketTimeoutException`, `SocketDisconnectException`,
`SocketDataSendException` from `iris_socket.py`, the `pyiris.error`
hierarchy, `StopIteration`, and the builtin errors that the code can hit:
`TypeError` for an unexpected keyword argument, `AttributeError` for a
method call on `None`, `IndexError`, `NameError`, `ValueError`, `OSError`). -/
inductive PyErr where
  | socketTimeoutExc
  | socketDisconnectExc
  | socketDataSendExc
  | stopIteration
  | operationalError (msg : String)
  | programmingError (msg : String)
  | dataError (msg : String)
  | internalError (msg : String)
  | typeErr
  | attributeErr
  | indexErr
  | nameErr
  | valueErr
  | osErr
  deriving DecidableEq, Repr

/-! ## Python string primitives -/

/-- Python `s.split(sep, 1)` when `sep` occurs in `s`: the part before the
first occurrence of `c` and the part after it; `none` when `c` is absent. -/
def splitFirst (c : Char) : List Char → Option (List Char × List Char)
  | [] => none
  | x :: xs =>
    if x = c then some ([], xs)
    else match splitFirst c xs with
      | some (a, b) => some (x :: a, b)
      | none => none

/-- Python `s.strip()` (whitespace from both ends). -/
def pyStrip (l : List Char) : List Char :=
  ((l.dropWhile Char.isWhitespace).reverse.dropWhile Char.isWhitespace).reverse

/-- Python `s.upper()` (ASCII case mapping suffices for the embedded code). -/
def pyUpper (l : List Char) : List Char :=
  l.map Char.toUpper

/-- Decimal value of a digit string (helper for `pyInt`). -/
def digitsVal (l : List Char) : Nat :=
  l.foldl (fun a c => a * 10 + (c.toNat - 48)) 0

/-- Python `int(s)` on a non-negative decimal literal: surrounding
whitespace is allowed, the remaining characters must be digits and
nonempty, otherwise `ValueError` (`none`). -/
def pyInt (l : List Char) : Option Nat :=
  let s := pyStrip l
  if s ≠ [] ∧ s.all Char.isDigit then some (digitsVal s) else none

/-! ## `IRISSocket.read_message` (iris_socket.py lines 251-268)

```python
SUCCESS_CODE = "+"
line = self.readline()
if " " in line:
    code, msg = line.split(" ", 1)
else:
    code, msg = line, ''
if code[0] == SUCCESS_CODE:
    return True, msg
return False, msg
```
-/

/-- Processing of one status line by `IRISSocket.read_message`, given the
line returned by `readline`.  `none` models the `IndexError` that `code[0]`
raises when the code part is empty. -/
def read_message_of_line (line : String) : Option (Bool × String) :=
  let l := line.toList
  let p := match splitFirst ' ' l with
    | some (code, msg) => (code, msg)
    | none => (l, [])
  match p.1 with
  | [] => none
  | c :: _ => some (c = '+', String.mk p.2)

/-! ## `Cursor._has_semicolon` and the statement-terminator rule
(cursor.py lines 156-161 and 207-208)

```python
TARGET_COMMANDS = ("SELECT", "UPDATE", "INSERT", "DELETE", "CREATE", "DROP", "ALTER", "/*+")
sql = sql.upper().strip()
if sql.startswith(TARGET_COMMANDS) and not sql.endswith(";"):
    return False
return True
```
-/

def TARGET_COMMANDS : List (List Char) :=
  ["SELECT".toList, "UPDATE".toList, "INSERT".toList, "DELETE".toList,
   "CREATE".toList, "DROP".toList, "ALTER".toList, "/*+".toList]

/-- Python `s.startswith(tuple)`. -/
def startsWithAny (pres : List (List Char)) (l : List Char) : Bool :=
  pres.any (fun p => p.isPrefixOf l)

def _has_semicolon (sql : String) : Bool :=
  let s := pyStrip (pyUpper sql.toList)
  if startsWithAny TARGET_COMMANDS s ∧ s.getLast? ≠ some ';' then false else true

/-- The terminator step of `Cursor.execute` / `Cursor.execute1`:
`if not self._has_semicolon(operation): operation += ';'`. -/
def applyTerminator (q : String) : String :=
  if _has_semicolon q then q else q ++ ";"

/-- The text `Cursor.execute` puts on the wire for a query with no
parameters: `f"EXECUTE2 {sql_size}\r\n{operation}"` where `sql_size` is the
UTF-8 byte length of the terminated operation (cursor.py lines 210-211). -/
def executeWireCommand (q : String) : String :=
  let op := applyTerminator q
  "EXECUTE2 " ++ toString op.utf8ByteSize ++ "\r\n" ++ op

/-! ## Helper lemmas on the string primitives -/

theorem splitFirst_of_not_mem {c : Char} : ∀ {l : List Char}, c ∉ l →
    splitFirst c l = none := by
  intro l h
  induction l with
  | nil => rfl
  | cons x xs ih =>
    have hx : ¬ x = c := fun hc => h (hc ▸ List.mem_cons_self x xs)
    have hxs : c ∉ xs := fun hc => h (List.mem_cons_of_mem x hc)
    simp [splitFirst, hx, ih hxs]

theorem splitFirst_append_cons {c : Char} : ∀ {l : List Char} (r : List Char),
    c ∉ l → splitFirst c (l ++ c :: r) = some (l, r) := by
  intro l
  induction l with
  | nil => intro r _; simp [splitFirst]
  | cons x xs ih =>
    intro r h
    have hx : ¬ x = c := fun hc => h (hc ▸ List.mem_cons_self x xs)
    have hxs : c ∉ xs := fun hc => h (List.mem_cons_of_mem x hc)
    simp [splitFirst, hx, ih r hxs]

theorem pyStrip_concat_of_not_ws {b : Char} (l : List Char)
    (hb : b.isWhitespace = false) : ∃ m, pyStrip (l ++ [b]) = m ++ [b] := by
  unfold pyStrip
  rw [List.dropWhile_append]
  by_cases h : (List.dropWhile Char.isWhitespace l).isEmpty = true
  · refine ⟨[], ?_⟩
    simp [h, List.dropWhile_cons, hb]
  · refine ⟨List.dropWhile Char.isWhitespace l, ?_⟩
    rw [if_neg h]
    simp [List.reverse_append, List.dropWhile_cons, hb]

theorem getLast?_pyStrip_concat {b : Char} (l : List Char)
    (hb : b.isWhitespace = false) : (pyStrip (l ++ [b])).getLast? = some b := by
  obtain ⟨m, hm⟩ := pyStrip_concat_of_not_ws l hb
  rw [hm, List.getLast?_concat]

theorem toList_append (s t : String) : (s ++ t).toList = s.toList ++ t.toList := by
  simp [String.toList, String.data_append]

/-- Appending the terminator makes `_has_semicolon` true: the uppercased,
stripped text then ends with `';'`. -/
theorem _has_semicolon_append_semi (q : String) : _has_semicolon (q ++ ";") = true := by
  unfold _has_semicolon
  have h1 : (q ++ ";").toList = q.toList ++ [';'] := by
    rw [toList_append]; rfl
  have h2 : pyUpper ((q ++ ";").toList) = pyUpper q.toList ++ [';'] := by
    rw [h1]; simp [pyUpper]
  rw [h2]
  have h3 := getLast?_pyStrip_concat (b := ';') (pyUpper q.toList) (by decide)
  simp only [String.toList] at h3
  simp [h3]

theorem applyTerminator_ne (q : String) (h : _has_semicolon q = false) :
    applyTerminator q ≠ q := by
  intro hc
  have hsemi : (";" : String).length = 1 := rfl
  have hlen : (applyTerminator q).length = q.length + 1 := by
    simp [applyTerminator, h, String.length_append, hsemi]
  rw [hc] at hlen
  omega

/-! ## Claim C5 -/

/-- C5: `execute` appends `';'` exactly when the uppercased, stripped query
starts with one of SELECT/UPDATE/INSERT/DELETE/CREATE/DROP/ALTER or `/*+`
and does not already end with `';'`; `execute("SELECT 1")` sends
`SELECT 1;`, `execute("SELECT 1;")` sends it unchanged, `execute("BEGIN")`
is unmodified, and the terminator rule is idempotent on its own output. -/
theorem C5_terminator_idempotent :
    (executeWireCommand "SELECT 1" = "EXECUTE2 9\r\nSELECT 1;"
      ∧ applyTerminator "SELECT 1" = "SELECT 1;"
      ∧ applyTerminator "SELECT 1;" = "SELECT 1;"
      ∧ applyTerminator "BEGIN" = "BEGIN")
    ∧ (∀ q : String, applyTerminator (applyTerminator q) = applyTerminator q)
    ∧ (∀ q : String, applyTerminator q ≠ q ↔
        (startsWithAny TARGET_COMMANDS (pyStrip (pyUpper q.toList)) = true ∧
          (pyStrip (pyUpper q.toList)).getLast? ≠ some ';')) := by
  refine ⟨by exact ⟨by decide, by decide, by decide, by decide⟩, ?_, ?_⟩
  · intro q
    by_cases h : _has_semicolon q = true
    · simp [applyTerminator, h]
    · have h' : _has_semicolon q = false := by simpa using h
      have : applyTerminator q = q ++ ";" := by simp [applyTerminator, h']
      rw [this, applyTerminator, _has_semicolon_append_semi q, if_pos rfl]
  · intro q
    constructor
    · intro hne
      by_contra hs
      have h' : _has_semicolon q = true := by
        simp only [_has_semicolon]
        rw [if_neg hs]
      exact hne (by simp [applyTerminator, h'])
    · intro hcond
      have h' : _has_semicolon q = false := by
        simp only [_has_semicolon]
        rw [if_pos hcond]
      exact applyTerminator_ne q h'

/-- Witness for C5 at concrete inputs. -/
theorem C5_terminator_idempotent_witness :
    applyTerminator (applyTerminator "SELECT 2") = applyTerminator "SELECT 2" :=
  C5_terminator_idempotent.2.1 "SELECT 2"

/-! ## Claim C6 -/

/-- C6 counterexample: the claim states that `"+OK done"` yields
`(true, "OK done")`, but `read_message` splits the line on the first space,
so the message part is only `"done"` (and `"-ERR bad"` likewise yields
message `"bad"`, not `"ERR bad"`). -/
theorem C6_counterexample :
    read_message_of_line "+OK done" = some (true, "done")
    ∧ read_message_of_line "-ERR bad" = some (false, "bad")
    ∧ ("done" : String) ≠ "OK done" ∧ ("bad" : String) ≠ "ERR bad" := by
  refine ⟨?_, ?_, by decide, by decide⟩ <;> rfl

/-- C6 (amended): `read_message` splits the delivered line on the first
space into a code and a message; the result is `(true, message)` exactly
when the code's first character is `'+'`, where the message is everything
after the first space (empty when there is no space).  So `"+OK done"`
yields `(true, "done")`, `"-ERR bad"` yields `(false, "bad")` and `"+"`
yields `(true, "")`. -/
theorem C6_read_message_splits_on_first_space :
    (∀ (c : Char) (code msgl : List Char), ' ' ∉ c :: code →
      read_message_of_line (String.mk ((c :: code) ++ ' ' :: msgl)) =
        some (decide (c = '+'), String.mk msgl))
    ∧ (∀ (c : Char) (code : List Char), ' ' ∉ c :: code →
      read_message_of_line (String.mk (c :: code)) = some (decide (c = '+'), ""))
    ∧ read_message_of_line "+OK done" = some (true, "done")
    ∧ read_message_of_line "-ERR bad" = some (false, "bad")
    ∧ read_message_of_line "+" = some (true, "") := by
  refine ⟨?_, ?_, rfl, rfl, rfl⟩
  · intro c code msgl h
    have hs := splitFirst_append_cons (c := ' ') msgl h
    simp only [List.cons_append] at hs
    simp [read_message_of_line, String.toList, hs]
  · intro c code h
    have hs := splitFirst_of_not_mem (c := ' ') h
    simp [read_message_of_line, String.toList, hs]

/-- Witness for C6 at a concrete line. -/
theorem C6_read_message_splits_witness :
    read_message_of_line (String.mk (('+' :: "XY".toList) ++ ' ' :: "m n".toList)) =
      some (decide ('+' = '+'), String.mk "m n".toList) :=
  C6_read_message_splits_on_first_space.1 '+' "XY".toList "m n".toList (by decide)

/-! ## Claim C7: `Connection._nsd_connect` reply handling
(connect.py lines 85-103)

```python
result, msg = self.socket.read_message()
if not result :
    if msg.strip() == "Invalid Command":
        raise OperationalError("For DIRECT Connection, IRIS NSD PORT is required, but invalid port is given.")
    raise OperationalError(msg)
ip = msg.strip().split(":", 1)[0]
port = int(msg.strip().split(":", 1)[1])
```
-/

def NSD_PORT_REQUIRED_MSG : String :=
  "For DIRECT Connection, IRIS NSD PORT is required, but invalid port is given."

/-- Handling of the reply line to the direct-mode `GET` request by
`Connection._nsd_connect`: the outcome determined by the single status line
the server sends back. -/
def nsd_connect_reply (line : String) : Except PyErr (String × Nat) :=
  match read_message_of_line line with
  | none => .error .indexErr
  | some (result, msg) =>
    if result = false then
      if pyStrip msg.toList = "Invalid Command".toList then
        .error (.operationalError NSD_PORT_REQUIRED_MSG)
      else
        .error (.operationalError msg)
    else
      match splitFirst ':' (pyStrip msg.toList) with
      | some (ip, portStr) =>
        match pyInt portStr with
        | some p => .ok (String.mk ip, p)
        | none => .error .valueErr
      | none => .error .indexErr

/-- C7 counterexample: when the `GET` reply line is exactly
`"-Invalid Command"`, `read_message` splits it into code `"-Invalid"` and
message `"Command"`, so the `msg.strip() == "Invalid Command"` test fails
and the constructor raises the generic `OperationalError("Command")`,
not the distinguished NSD-port error. -/
theorem C7_counterexample :
    nsd_connect_reply "-Invalid Command" = .error (.operationalError "Command")
    ∧ ("Command" : String) ≠ NSD_PORT_REQUIRED_MSG := by
  refine ⟨rfl, by decide⟩

/-- C7 (amended): the distinguished NSD-port error is raised exactly for a
failing reply whose text after the first space strips to
`"Invalid Command"`, e.g. `"-ERR Invalid Command"`; the exact reply
`"-Invalid Command"` instead raises a generic `OperationalError` carrying
`"Command"`. -/
theorem C7_nsd_redirect_failure :
    nsd_connect_reply "-ERR Invalid Command" =
      .error (.operationalError NSD_PORT_REQUIRED_MSG)
    ∧ nsd_connect_reply "-Invalid Command" = .error (.operationalError "Command")
    ∧ nsd_connect_reply "+OK 10.0.0.1:5050" = .ok ("10.0.0.1", 5050) := by
  refine ⟨rfl, rfl, rfl⟩

/-! ## The `IRISSocket` transport buffering layer (iris_socket.py)

The mutable attributes of an `IRISSocket` object together with the stream of
bytes the peer will deliver through `recv`.  Chunk boundaries and timeouts
are external to the object, so `_readline`/`_read` additionally take a
schedule of recv events: `chunk k` is a `recv` call that returns up to `k`
of the pending bytes (at least one when any are pending — `recv` never
returns an empty string on an open connection), `timeout` is a `recv` call
interrupted by `socket.timeout`.  An exhausted schedule behaves like a
timeout (the blocking `recv` would eventually trip the configured timeout).
An empty pending stream makes `recv` return `""`, which the code treats as
a disconnect. -/

structure IRISSocketSt where
  /-- Bytes the peer will deliver, in order (the network side). -/
  stream : List Char
  /-- `self.remained_data`: the carry-over buffer. -/
  remained_data : List Char
  /-- `self.remaining_buffer_size`. -/
  remaining_buffer_size : Nat
  /-- `self.received_data_list`. -/
  received_data_list : List (List Char)
  deriving DecidableEq, Repr

inductive RecvEv where
  | chunk (k : Nat)
  | timeout
  deriving DecidableEq, Repr

/-- Number of bytes a `recv(bufsize)` call returns for chunk event `k`:
at most `k`, at most `bufsize`, at most what is pending, and at least one
byte when any are pending. -/
def recvEff (bufsize k : Nat) (stream : List Char) : Nat :=
  min (max k 1) (min bufsize stream.length)

/-- A method result carrying the post-state on both exits, because a raised
Python exception leaves the mutated `self` behind. -/
inductive TRes (α : Type) where
  | ok (a : α) (st : IRISSocketSt)
  | exc (e : PyErr) (st : IRISSocketSt)
  deriving DecidableEq, Repr

/-- The `while True` loop of `IRISSocket._readline`
(iris_socket.py lines 150-180):

```python
while True:
    try:
        received_data = temp_socket.recv(2048000).decode("utf-8")
    except socket.timeout:
        self.remained_data = temp_data_buffer
        ...
        raise SocketTimeoutException
    ...
    if not received_data:
        self.remained_data = temp_data_buffer
        ...
        raise SocketDisconnectException
    temp_data_buffer = temp_data_buffer + received_data
    if "\n" in received_data:
        data, temp_data_buffer = temp_data_buffer.split("\n", 1)
        break
    if not continue_on_empty:
        break
self.remained_data = temp_data_buffer
return data
```
-/
def _readlineLoop (cont : Bool) : List RecvEv → List Char → IRISSocketSt →
    TRes (List Char)
  | [], temp, st => .exc .socketTimeoutExc { st with remained_data := temp }
  | .timeout :: _, temp, st => .exc .socketTimeoutExc { st with remained_data := temp }
  | .chunk k :: sched, temp, st =>
    let t := recvEff 2048000 k st.stream
    if t = 0 then
      .exc .socketDisconnectExc { st with remained_data := temp }
    else
      let received := st.stream.take t
      let st' := { st with stream := st.stream.drop t }
      let temp' := temp ++ received
      if '\n' ∈ received then
        match splitFirst '\n' temp' with
        | some (data, rest) => .ok data { st' with remained_data := rest }
        | none => .ok temp' { st' with remained_data := [] }
      else if cont then
        _readlineLoop cont sched temp' st'
      else
        .ok [] { st' with remained_data := temp' }

/-- `IRISSocket._readline` (iris_socket.py lines 129-183).  The branch for a
newline already in the carry-over buffer is

```python
if "\n" in temp_data_buffer:
    data, self.remained_data = temp_data_buffer.split("\n", 1)
    self.remained_data = temp_data_buffer
    self.socket = temp_socket
    return data
```

so `self.remained_data` ends up reassigned to the whole buffer. -/
def _readline (cont : Bool) (sched : List RecvEv) (st : IRISSocketSt) :
    TRes (List Char) :=
  match splitFirst '\n' st.remained_data with
  | some (data, _rest) => .ok data st
  | none => _readlineLoop cont sched st.remained_data st

/-- The `while 1` loop of `IRISSocket._read` (iris_socket.py lines 215-249):
on `socket.timeout` the checkpoint
(`remaining_buffer_size`, `remained_data = ""`, `received_data_list`)
is stored and `SocketTimeoutException` raised; each `recv(remaining_bytes)`
chunk is appended to `received_data_list` until `remaining_bytes` hits 0. -/
def _readLoop : List RecvEv → Nat → List (List Char) → IRISSocketSt →
    TRes (List Char)
  | [], remaining, rdl, st =>
    .exc .socketTimeoutExc
      { st with remaining_buffer_size := remaining, remained_data := [],
                received_data_list := rdl }
  | .timeout :: _, remaining, rdl, st =>
    .exc .socketTimeoutExc
      { st with remaining_buffer_size := remaining, remained_data := [],
                received_data_list := rdl }
  | .chunk k :: sched, remaining, rdl, st =>
    let t := recvEff remaining k st.stream
    if t = 0 then
      .exc .socketDisconnectExc
        { st with remaining_buffer_size := remaining, remained_data := [],
                  received_data_list := rdl }
    else
      let received := st.stream.take t
      let st' := { st with stream := st.stream.drop t }
      let rdl' := rdl ++ [received]
      let remaining' := remaining - t
      if remaining' = 0 then
        .ok rdl'.flatten
          { st' with remaining_buffer_size := 0, remained_data := [],
                     received_data_list := [] }
      else
        _readLoop sched remaining' rdl' st'

/-- `IRISSocket._read` (iris_socket.py lines 185-249):

```python
temp_data_buffer = self.remained_data
remaining_bytes = size
received_data_list = []
if not temp_data_buffer:
    return ""
if remaining_bytes <= len(temp_data_buffer):
    self.remained_data = temp_data_buffer[remaining_bytes:]
    return temp_data_buffer[:remaining_bytes]
remaining_bytes -= len(temp_data_buffer)
received_data_list.append(temp_data_buffer)
temp_data_buffer = ""
while 1: ...
```
-/
def _read (size : Nat) (sched : List RecvEv) (st : IRISSocketSt) :
    TRes (List Char) :=
  let buf := st.remained_data
  if buf = [] then .ok [] st
  else if size ≤ buf.length then
    .ok (buf.take size) { st with remained_data := buf.drop size }
  else
    _readLoop sched (size - buf.length) [buf] st

/-! ## Claims C1, C2, C3 -/

/-- C1 refuted by the code: `read(1)` on a transport whose carry-over
buffer is empty returns `""` immediately — the guard
`if not temp_data_buffer: return ""` exits before any `recv` — even though
a byte is pending on the socket, instead of reading until 1 byte is
accumulated. -/
theorem C1_read_empty_buffer_returns_nothing :
    _read 1 [.chunk 1] ⟨['a'], [], 0, []⟩ = .ok [] ⟨['a'], [], 0, []⟩
    ∧ ([] : List Char).length ≠ 1 := by
  exact ⟨rfl, by decide⟩

/-- C2 refuted by the code: delivering the stream `"abc\ndef\n"` in one
chunk, the first `readline` returns `"abc"` and leaves `"def\n"` buffered;
the second `readline` hits the fast path, returns `"def"` but leaves
`remained_data` equal to the whole buffer `"def\n"` (the split result is
immediately overwritten), so the delivered line stays in the carry-over
buffer and an identical third call returns `"def"` again — duplication. -/
theorem C2_readline_duplicates_buffered_line :
    _readline true [.chunk 9] ⟨"abc\ndef\n".toList, [], 0, []⟩ =
      .ok "abc".toList ⟨[], "def\n".toList, 0, []⟩
    ∧ _readline true [] ⟨[], "def\n".toList, 0, []⟩ =
      .ok "def".toList ⟨[], "def\n".toList, 0, []⟩
    ∧ "def".toList.isPrefixOf "def\n".toList = true := by
  exact ⟨rfl, rfl, by decide⟩

/-- C3 half-confirmed, half refuted by the code: a `read(4)` that drained
`"ab"` from the buffer, received `"c"`, then timed out does store the
checkpoint (`remaining_buffer_size = 1`,
`received_data_list = ["ab", "c"]`) — but the checkpoint is never read
back: the retried `read(4)` sees the emptied `remained_data`, hits the
`if not temp_data_buffer: return ""` guard and returns `""`, not the four
bytes `"abcd"`. -/
theorem C3_timeout_checkpoint_not_resumed :
    _read 4 [.chunk 1, .timeout] ⟨"cd".toList, "ab".toList, 0, []⟩ =
      .exc .socketTimeoutExc ⟨['d'], [], 1, [['a', 'b'], ['c']]⟩
    ∧ _read 4 [.chunk 1] ⟨['d'], [], 1, [['a', 'b'], ['c']]⟩ =
      .ok [] ⟨['d'], [], 1, [['a', 'b'], ['c']]⟩
    ∧ ([] : List Char) ≠ "abcd".toList := by
  exact ⟨rfl, rfl, by decide⟩

/-! ## Claim C8: `Connection.close` (connect.py lines 123-134)

```python
def close(self) -> None:
    self.commit()
    if self.cursor_:
        self.cursor_.close()
    try: self.socket.send_message("QUIT\r\n", timeOut=1)
    except: pass
    try: self.socket.readline(timeOut=1)
    except: pass
    try: self.socket.close()
    except: pass
    self.socket = None
```

`send_message`/`readline` take a parameter named `timeout`, not `timeOut`,
so on a live socket both calls raise `TypeError` (unexpected keyword
argument) before touching the network; on a torn-down connection
(`self.socket is None`) they raise `AttributeError`.  Every failure is
swallowed by its own bare `except`. -/

/-- The environment-dependent part of a live socket: whether the OS-level
`close()` raises. -/
structure ConnSockSt where
  closeRaises : Bool
  deriving DecidableEq, Repr

/-- The attributes of a `Connection` that `close` touches:
`self.socket` (set to `None` on teardown) and `self.cursor_`. -/
structure ConnState where
  sock : Option ConnSockSt
  hasCursor : Bool
  deriving DecidableEq, Repr

/-- `Connection.commit`: `pass`. -/
def commitStep : Except PyErr Unit := .ok ()

/-- `Cursor.close`: `pass` (no network effect). -/
def cursorCloseStep : Except PyErr Unit := .ok ()

/-- `self.socket.send_message("QUIT\r\n", timeOut=1)`:
`AttributeError` on `None`, otherwise `TypeError` for the misspelled
keyword argument (the method's parameter is named `timeout`). -/
def quitSendStep (st : ConnState) : Except PyErr Unit :=
  match st.sock with
  | none => .error .attributeErr
  | some _ => .error .typeErr

/-- `self.socket.readline(timeOut=1)`: same failure modes as the send. -/
def quitReadlineStep (st : ConnState) : Except PyErr Unit :=
  match st.sock with
  | none => .error .attributeErr
  | some _ => .error .typeErr

/-- `self.socket.close()`: `AttributeError` on `None`, otherwise an
`OSError` when the operating-system close fails. -/
def sockCloseStep (st : ConnState) : Except PyErr Unit :=
  match st.sock with
  | none => .error .attributeErr
  | some h => if h.closeRaises then .error .osErr else .ok ()

/-- A bare `try: ... except: pass`. -/
def pyTrySwallow (x : Except PyErr Unit) : Except PyErr Unit :=
  match x with
  | .ok _ => .ok ()
  | .error _ => .ok ()

/-- `Connection.close`, with each Python statement one step; an error
value anywhere short-circuits like an uncaught Python exception. -/
def Connection_close (st : ConnState) : Except PyErr ConnState :=
  match commitStep with
  | .error e => .error e
  | .ok _ =>
    match (if st.hasCursor then cursorCloseStep else Except.ok ()) with
    | .error e => .error e
    | .ok _ =>
      match pyTrySwallow (quitSendStep st) with
      | .error e => .error e
      | .ok _ =>
        match pyTrySwallow (quitReadlineStep st) with
        | .error e => .error e
        | .ok _ =>
          match pyTrySwallow (sockCloseStep st) with
          | .error e => .error e
          | .ok _ => .ok { st with sock := none }

/-- C8: for every connection state — live, torn down, with or without a
cursor, whether or not the QUIT send, the reply read or the socket close
fails — `close()` returns normally with the socket cleared, and a second
`close()` on the already-closed connection is a no-op yielding the same
state. -/
theorem C8_close_never_raises (st : ConnState) :
    Connection_close st = .ok { st with sock := none }
    ∧ Connection_close { st with sock := none } = .ok { st with sock := none } := by
  obtain ⟨sock, hc⟩ := st
  cases sock with
  | none => cases hc <;> exact ⟨rfl, rfl⟩
  | some h =>
    cases h with
    | mk cr => cases cr <;> cases hc <;> exact ⟨rfl, rfl⟩

/-- Witness for C8 at a concrete connection state. -/
theorem C8_close_never_raises_witness :
    Connection_close ⟨some ⟨true⟩, true⟩ = .ok ⟨none, true⟩
    ∧ Connection_close ⟨none, true⟩ = .ok ⟨none, true⟩ :=
  C8_close_never_raises ⟨some ⟨true⟩, true⟩

/-! ## Claim C9: the control block of `Cursor.load` (cursor.py lines 318-373)

```python
load_option = LoadOption(skip_rows=skip_rows, use_zlib=use_zlib)
if not os.path.exists(load_file_path):
    raise DataError("-ERR file does not exist")
if not load_option.validate_csv and columns is None:
    raise DataError("-ERR column is not iterable type.\r\n")
self._set_field_sep(sep)
self._set_record_sep(record_sep)
if columns:
    control_data = self.record_sep.join(columns)
    ctl_size = len(control_data)
else:
    control_data = 'NULL'
    ctl_size = 4
```
-/

/-- `pyiris/load.py`: the `LoadOption` dataclass with its defaults. -/
structure LoadOption where
  validate_csv : Bool := false
  validate_unique : Bool := false
  validate_unique_by_name : Bool := false
  use_zlib : Bool := false
  skip_rows : Nat := 0
  deriving DecidableEq, Repr

/-- The `LoadOption` that `Cursor.load` constructs: only `skip_rows` and
`use_zlib` are passed, every `validate_*` flag keeps its `False` default. -/
def loadOptionOfLoad (skip_rows : Nat) (use_zlib : Bool) : LoadOption :=
  { skip_rows := skip_rows, use_zlib := use_zlib }

/-- The `columns` argument of `Cursor.load`: `None` or a list. -/
inductive PyColumns where
  | pynone
  | pylist (cols : List String)
  deriving DecidableEq, Repr

/-- Python truthiness of the `columns` argument (`if columns:`). -/
def pyColumnsTruthy : PyColumns → Bool
  | .pynone => false
  | .pylist cols => !cols.isEmpty

/-- The part of `Cursor.load` up to and including the control-payload
construction.  `fileExists` models `os.path.exists(load_file_path)`;
`sepStepsSucceed` models whether the two separator-set commands get a
success reply (on success `self.record_sep` becomes `record_sep`).
Returns the control payload, the announced control length `ctl_size`, and
the cursor's record separator after the call. -/
def loadControlBlock (columns : PyColumns) (record_sep : String)
    (skip_rows : Nat) (use_zlib : Bool) (fileExists sepStepsSucceed : Bool) :
    Except PyErr (String × Nat × String) :=
  let load_option := loadOptionOfLoad skip_rows use_zlib
  if fileExists = false then
    .error (.dataError "-ERR file does not exist")
  else if load_option.validate_csv = false ∧ columns = .pynone then
    .error (.dataError "-ERR column is not iterable type.\r\n")
  else if sepStepsSucceed = false then
    .error (.dataError "-ERR separator rejected")
  else if pyColumnsTruthy columns then
    match columns with
    | .pylist cols =>
      let control_data := String.intercalate record_sep cols
      .ok (control_data, control_data.length, record_sep)
    | .pynone => .error .typeErr
  else
    .ok ("NULL", 4, record_sep)

/-- C9 counterexample: calling `load` with no columns (`columns=None`)
never produces the `NULL` control payload — it raises
`DataError("-ERR column is not iterable type.\r\n")`, because the
`LoadOption` that `load` itself constructs always has
`validate_csv=False`, so the load option can never indicate a
self-describing format. -/
theorem C9_counterexample :
    loadControlBlock .pynone "\n" 0 false true true =
      .error (.dataError "-ERR column is not iterable type.\r\n")
    ∧ (loadOptionOfLoad 0 false).validate_csv = false := by
  exact ⟨rfl, rfl⟩

/-- C9 (amended): with `columns=["a","b"]` and record separator `"\n"` the
control payload is `"a\nb"` with announced length 3; the literal `"NULL"`
with announced length 4 is produced when `columns` is given but falsy
(e.g. the empty list), not when `columns=None`: the `LoadOption` built by
`load` always has `validate_csv=False`, so `columns=None` always raises
`DataError` before the separators are even set. -/
theorem C9_load_control_block :
    loadControlBlock (.pylist ["a", "b"]) "\n" 0 false true true =
      .ok ("a\nb", 3, "\n")
    ∧ loadControlBlock (.pylist []) "\n" 0 false true true = .ok ("NULL", 4, "\n")
    ∧ (∀ (skip_rows : Nat) (use_zlib : Bool),
        (loadOptionOfLoad skip_rows use_zlib).validate_csv = false)
    ∧ (∀ (record_sep : String) (skip_rows : Nat) (use_zlib sepOk : Bool),
        loadControlBlock .pynone record_sep skip_rows use_zlib true sepOk =
          .error (.dataError "-ERR column is not iterable type.\r\n")) := by
  refine ⟨rfl, rfl, fun _ _ => rfl, fun _ _ _ _ => rfl⟩

/-! ## Claim C10: `Cursor.mogrify` and `Cursor.execute` parameter handling
(cursor.py lines 174-183 and 203)

```python
def mogrify(self, query, args=None):
    if args is not None:
        params = self._convert_params(args)
        query = query % params
    return query
```

The host values relevant to the claims are modelled (bool, int, str,
None); their converters follow `converter.py` (note `convert_str` quotes
without escaping — the `translate` call is commented out in the source).
Python's builtin `%` operator on a tuple is modelled for the `%s`
conversion and the `%%` escape; any other character after `%` is a
`ValueError` (unsupported format character / incomplete format), and an
argument-count mismatch is a `TypeError`, as in CPython. -/

inductive PyVal where
  | pybool (b : Bool)
  | pyint (n : Int)
  | pystr (s : String)
  | pynoneV
  deriving DecidableEq, Repr

/-- `converter.convert` restricted to the modelled value kinds. -/
def convert : PyVal → String
  | .pybool b => if b then "1" else "0"
  | .pyint n => toString n
  | .pystr s => "'" ++ s ++ "'"
  | .pynoneV => "NULL"

/-- The tuple/list branch of `Cursor._convert_params`:
`tuple([convert(a) for a in args])`. -/
def _convert_params (args : List PyVal) : List String :=
  args.map convert

/-- Python `fmt % params` for a tuple of already-converted strings. -/
def pyFormat : List Char → List String → Except PyErr (List Char)
  | [], ps => if ps = [] then .ok [] else .error .typeErr
  | c :: rest, ps =>
    if c = '%' then
      match rest with
      | [] => .error .valueErr
      | d :: rest' =>
        if d = '%' then
          match pyFormat rest' ps with
          | .ok out => .ok ('%' :: out)
          | .error e => .error e
        else if d = 's' then
          match ps with
          | [] => .error .typeErr
          | p :: ps' =>
            match pyFormat rest' ps' with
            | .ok out => .ok (p.toList ++ out)
            | .error e => .error e
        else .error .valueErr
    else
      match pyFormat rest ps with
      | .ok out => .ok (c :: out)
      | .error e => .error e

/-- `Cursor.mogrify`: with `args=None` the query is returned as-is; with
`args` supplied it is `%`-formatted against the converted parameters. -/
def mogrify (query : String) (args : Option (List PyVal)) : Except PyErr String :=
  match args with
  | none => .ok query
  | some a =>
    match pyFormat query.toList (_convert_params a) with
    | .ok out => .ok (String.mk out)
    | .error e => .error e

/-- C10: with `args` omitted or `None`, `mogrify` (and hence `execute`)
passes the query through unchanged — no `%`-substitution happens and a
literal `'%'` survives — whereas with `args` supplied the query is
`%`-formatted against the converted parameters, so an unescaped literal
`'%'` then breaks the format (`ValueError`) and has to be written `%%`. -/
theorem C10_mogrify_percent_handling :
    (∀ q : String, mogrify q none = .ok q)
    ∧ mogrify "SELECT '100%' FROM t" none = .ok "SELECT '100%' FROM t"
    ∧ mogrify "INSERT INTO t VALUES (%s,%s)" (some [.pyint 5, .pystr "a"]) =
        .ok "INSERT INTO t VALUES (5,'a')"
    ∧ mogrify "SELECT '100%' FROM t WHERE a=%s" (some [.pyint 5]) =
        .error .valueErr
    ∧ mogrify "SELECT '100%%' FROM t WHERE a=%s" (some [.pyint 5]) =
        .ok "SELECT '100%' FROM t WHERE a=5" := by
  exact ⟨fun _ => rfl, rfl, rfl, rfl, rfl⟩

/-! ## Claim C4: `Cursor.fetchall` / `Cursor.fetchone`
(cursor.py lines 256-315)

The cursor drives the transport only through `readline`, `read(n)` and
`send_message`, so the model composes the cursor state machine with the
`IRISSocket` embedding above.  A run is parameterized by the recv-event
schedules of the successive transport calls (`plan`): the i-th
`readline`/`read` call hands its entry to `_readline`/`_read`; a call
satisfied entirely from the carry-over buffer never reaches `recv` and
ignores its entry.  `send_message` succeeds against the scripted server
and is logged.  `json.loads` on a payload is a fallible decoder (`none`
models `json.JSONDecodeError`, a `ValueError`). -/

/-- The cursor attributes used by the fetch path, together with the owned
socket state, the recv schedules of the remaining transport calls, and
the log of sent commands. -/
structure CursorSt (ρ : Type) where
  is_initial_execution : Bool
  buffer : List ρ
  has_next : Bool
  sock : IRISSocketSt
  plan : List (List RecvEv)
  sent : List String
  deriving DecidableEq, Repr

/-- A cursor method result carrying the post-state on both exits. -/
inductive CRes (ρ α : Type) where
  | ok (a : α) (st : CursorSt ρ)
  | exc (e : PyErr) (st : CursorSt ρ)
  deriving DecidableEq, Repr

/-- The recv events the next transport call will observe. -/
def nextSched {ρ : Type} (st : CursorSt ρ) : List RecvEv × CursorSt ρ :=
  match st.plan with
  | [] => ([], st)
  | s :: rest => (s, { st with plan := rest })

/-- `self.socket.readline()` as the cursor calls it
(the default `continue_on_empty=True`, no timeout override). -/
def cursorReadline {ρ : Type} (st : CursorSt ρ) : CRes ρ (List Char) :=
  let p := nextSched st
  match _readline true p.1 p.2.sock with
  | .ok data sock' => .ok data { p.2 with sock := sock' }
  | .exc e sock' => .exc e { p.2 with sock := sock' }

/-- `self.socket.read(n)` as the cursor calls it. -/
def cursorRead {ρ : Type} (n : Nat) (st : CursorSt ρ) : CRes ρ (List Char) :=
  let p := nextSched st
  match _read n p.1 p.2.sock with
  | .ok data sock' => .ok data { p.2 with sock := sock' }
  | .exc e sock' => .exc e { p.2 with sock := sock' }

/-- `self.socket.send_message(cmd)`: delivered in full to the scripted
server and logged. -/
def cursorSend {ρ : Type} (cmd : String) (st : CursorSt ρ) : CursorSt ρ :=
  { st with sent := st.sent ++ [cmd] }

/-- `msg.strip().split(" ", 1)` with the `try/except` of `_read_data` /
`fetchall`: the tag, and the parameter when the line contains a space
(`none` models the unbound `param` of the `except` branch). -/
def tagParam (msg : List Char) : List Char × Option (List Char) :=
  match splitFirst ' ' (pyStrip msg) with
  | some (t, p) => (t, some p)
  | none => (pyStrip msg, none)

/-- `Cursor._read_data` (cursor.py lines 256-278):

```python
if not self.is_initial_execution:
    self.socket.send_message("CONT\r\n")
else:
    self.is_initial_execution = False
msg = self.socket.readline()
try: (tag, param) = msg.strip().split(" ", 1)
except: tag = msg.strip()
if "+OK" == tag:
    self.has_next = True
    raise StopIteration()
if "-" == tag[0]:
    raise OperationalError(param)
data = self.socket.read(int(param))
self.buffer = json.loads(data)
```
-/
def _read_data {ρ : Type} (dec : List Char → Option (List ρ))
    (st : CursorSt ρ) : CRes ρ Unit :=
  let st := if !st.is_initial_execution
    then cursorSend "CONT\r\n" st
    else { st with is_initial_execution := false }
  match cursorReadline st with
  | .exc e st' => .exc e st'
  | .ok msg st' =>
    let tp := tagParam msg
    if tp.1 = "+OK".toList then
      .exc .stopIteration { st' with has_next := true }
    else
      match tp.1 with
      | [] => .exc .indexErr st'
      | c :: _ =>
        if c = '-' then
          match tp.2 with
          | some p => .exc (.operationalError (String.mk p)) st'
          | none => .exc .nameErr st'
        else
          match tp.2 with
          | none => .exc .nameErr st'
          | some p =>
            match pyInt p with
            | none => .exc .valueErr st'
            | some n =>
              match cursorRead n st' with
              | .exc e st'' => .exc e st''
              | .ok data st'' =>
                match dec data with
                | some rows => .ok () { st'' with buffer := rows }
                | none => .exc .valueErr st''

/-- `Cursor.fetchone` (cursor.py lines 311-315). -/
def fetchone {ρ : Type} (dec : List Char → Option (List ρ))
    (st : CursorSt ρ) : CRes ρ ρ :=
  if st.buffer.length = 0 then
    match _read_data dec st with
    | .exc e st' => .exc e st'
    | .ok _ st' =>
      match st'.buffer with
      | [] => .exc .indexErr st'
      | r :: rs => .ok r { st' with buffer := rs }
  else
    match st.buffer with
    | [] => .exc .indexErr st
    | r :: rs => .ok r { st with buffer := rs }

/-- The `while True` loop of `Cursor.fetchall` (cursor.py lines 289-302),
with explicit fuel for the unbounded loop; the theorems supply enough
fuel for the scripted exchange. -/
def fetchallLoop {ρ : Type} (dec : List Char → Option (List ρ)) :
    Nat → List ρ → CursorSt ρ → CRes ρ (List ρ)
  | 0, _, st => .exc .socketTimeoutExc st
  | fuel + 1, acc, st =>
    match cursorReadline st with
    | .exc e st' => .exc e st'
    | .ok msg st' =>
      let tp := tagParam msg
      if tp.1 = "+OK".toList then .ok acc st'
      else
        match tp.1 with
        | [] => .exc .indexErr st'
        | c :: _ =>
          if c = '-' then
            match tp.2 with
            | some p => .exc (.operationalError (String.mk p)) st'
            | none => .exc .nameErr st'
          else
            match tp.2 with
            | none => .exc .nameErr st'
            | some p =>
              match pyInt p with
              | none => .exc .valueErr st'
              | some n =>
                match cursorRead n st' with
                | .exc e st'' => .exc e st''
                | .ok data st'' =>
                  match dec data with
                  | none => .exc .valueErr st''
                  | some rows =>
                    fetchallLoop dec fuel (acc ++ rows)
                      (cursorSend "CONT ALL\r\n" st'')

/-- `Cursor.fetchall` (cursor.py lines 281-308): sends `CONT ALL` first
unless this is the first fetch after `execute1`, accumulates row batches
until a `+OK` line, then returns them as one list. -/
def fetchall {ρ : Type} (dec : List Char → Option (List ρ)) (fuel : Nat)
    (st : CursorSt ρ) : CRes ρ (List ρ) :=
  let st := if !st.is_initial_execution
    then cursorSend "CONT ALL\r\n" st
    else { st with is_initial_execution := false }
  fetchallLoop dec fuel [] st

/-! ## Claim C4 -/

/-- The scripted server's reply stream of the claim: two row-batch frames
(a `"+DATA 5"` count line, then the 5-byte JSON row array) and two `+OK`
lines (one ending `fetchall`, one answering the next `fetchone`'s
`CONT`). -/
def c4Script : List Char :=
  "+DATA 5\n[[1]]+DATA 5\n[[2]]+OK\n+OK\n".toList

/-- `json.loads` on the byte strings arising in the scripted scenario:
the two valid JSON row-array payloads decode to their row lists; any
other string read here (such as `"+DATA"`) is not valid JSON, so
`json.loads` raises `JSONDecodeError` (a `ValueError`). -/
def decScripted (l : List Char) : Option (List (List Nat)) :=
  if l = "[[1]]".toList then some [[1]]
  else if l = "[[2]]".toList then some [[2]]
  else none

/-- C4 refuted end-to-end on the real transport: when the scripted
replies arrive in a single recv chunk, the second `readline` hits the
duplication bug (C2) and leaves the status line in the carry-over
buffer, so the following `read(5)` returns `"+DATA"` instead of the
payload and `json.loads` raises — `fetchall` does not return the two
batches.  Under a per-frame chunking (each count line and payload
delivered together, 13-byte chunks) the identical scripted exchange does
behave as the claim describes: `fetchall` returns `[[1], [2]]` and the
next `fetchone` raises `StopIteration` — the cursor state machine is
right and the transport slips are to blame. -/
theorem C4_fetchall_breaks_on_one_chunk_delivery :
    fetchall decScripted 3
      ⟨false, [], false, ⟨c4Script, [], 0, []⟩, [[.chunk 34]], []⟩ =
      .exc .valueErr
        ⟨false, [], false, ⟨[], " 5\n[[2]]+OK\n+OK\n".toList, 0, []⟩, [],
         ["CONT ALL\r\n", "CONT ALL\r\n"]⟩
    ∧ fetchall decScripted 3
        ⟨false, [], false, ⟨c4Script, [], 0, []⟩,
         [[.chunk 13], [], [.chunk 13], [], [.chunk 4], [.chunk 4]], []⟩ =
      .ok [[1], [2]]
        ⟨false, [], false, ⟨"+OK\n".toList, [], 0, []⟩, [[.chunk 4]],
         ["CONT ALL\r\n", "CONT ALL\r\n", "CONT ALL\r\n"]⟩
    ∧ fetchone decScripted
        ⟨false, [], false, ⟨"+OK\n".toList, [], 0, []⟩, [[.chunk 4]],
         ["CONT ALL\r\n", "CONT ALL\r\n", "CONT ALL\r\n"]⟩ =
      .exc .stopIteration
        ⟨false, [], true, ⟨[], [], 0, []⟩, [],
         ["CONT ALL\r\n", "CONT ALL\r\n", "CONT ALL\r\n", "CONT\r\n"]⟩ := by
  exact ⟨rfl, rfl, rfl⟩

end PyIris
